import Mathlib

/-!
Verification of the bedtime-story pipeline (`main.py`) against its
specification.  The completion service is modelled by oracles: the
classifier and storyteller responses are given as data, the judge
response is given by its strict-JSON decode outcome (`none` models any
response text on which `json.loads` raises; `some v` models a response
decoding to the value `v`), and the reviser response is a function of
the messages it is sent.  Python exceptions surfaced by the pipeline
code itself are modelled by `PyError`; machine behaviour of the
`openai` client library is outside the source and is not modelled.
-/

/-- A decoded JSON value, as produced by Python `json.loads`. -/
inductive Json where
  | null : Json
  | bool : Bool → Json
  | num : Int → Json
  | str : String → Json
  | arr : List Json → Json
  | obj : List (String × Json) → Json

/-- Python exceptions that the pipeline code itself can raise. -/
inductive PyError where
  | attributeError : PyError
  | environmentError : PyError
deriving DecidableEq, Repr

/-- First-match association lookup, the dictionary lookup of a parsed
JSON object (keys are unique in a Python dict). -/
def lookupKey : List (String × Json) → String → Option Json
  | [], _ => none
  | (k, v) :: rest, key => if k = key then some v else lookupKey rest key

/-- Python truthiness of a JSON value (`if not x`). -/
def Json.truthy : Json → Bool
  | Json.null => false
  | Json.bool b => b
  | Json.num n => n != 0
  | Json.str s => s != ""
  | Json.arr xs => !xs.isEmpty
  | Json.obj fs => !fs.isEmpty

/-- `x.get(key, default)` in Python: defined on dictionaries, raises
`AttributeError` on any non-dictionary value. -/
def Json.pyGet (j : Json) (key : String) (default : Json) : Except PyError Json :=
  match j with
  | Json.obj fields => Except.ok ((lookupKey fields key).getD default)
  | _ => Except.error PyError.attributeError

/-- Whether a JSON value is an object (a Python dict after decoding). -/
def Json.isObj : Json → Bool
  | Json.obj _ => true
  | _ => false

/-- A role-tagged chat message, as the dictionaries built in `main.py`. -/
structure Message where
  role : String
  content : String
deriving DecidableEq, Repr

/-- The whitespace characters removed by Python `str.strip()` (the
ASCII ones; the pipeline never feeds it exotic Unicode spaces). -/
def isPySpace (c : Char) : Bool :=
  c = ' ' || c = '\t' || c = '\n' || c = '\x0b' || c = '\x0c' || c = '\r'

/-- Python `str.strip()`: drop leading and trailing whitespace. -/
def pyStrip (s : String) : String :=
  String.mk (((s.data.dropWhile isPySpace).reverse.dropWhile isPySpace).reverse)

/-- Python `str.lower()` (its ASCII case mapping, which covers every
string the pipeline compares). -/
def pyLower (s : String) : String :=
  String.mk (s.data.map Char.toLower)

/-- `MAX_INTERNAL_REVISIONS` from `main.py`. -/
def MAX_INTERNAL_REVISIONS : Nat := 1

/-- `MAX_USER_REVISIONS` from `main.py`. -/
def MAX_USER_REVISIONS : Nat := 2

/-- `classify_request` applied to the completion-service response text:
the source returns `chat_once(...).strip().lower()`, i.e. the response
trimmed of surrounding whitespace and lower-cased, with no membership
check against the enumerated category set. -/
def classify_request (responseText : String) : String :=
  pyLower (pyStrip responseText)

/-- `storyteller_messages(user_request, category)` from `main.py`. -/
def storyteller_messages (user_request : String) (category : String) : List Message :=
  [ { role := "system"
    , content :=
        "You are \"The Careful Storyteller,\" writing for ages 5–10. "
          ++ "Category: " ++ category ++ ". "
          ++ "Always:\n- Use a classic story arc (setup → challenge → resolution).\n- Keep language simple, vivid, and warm.\n- Avoid violence, horror, or adult topics.\nOutput as Markdown with:\n# Title\n## Story\n## Moral" }
  , { role := "user", content := user_request } ]

/-- `judge_messages(user_request, story_md)` from `main.py`. -/
def judge_messages (user_request : String) (story_md : String) : List Message :=
  [ { role := "system"
    , content :=
        "You are \"The Gentle Judge,\" reviewing a story for ages 5–10.\nReturn ONLY JSON with keys:\n\x7bage_appropriateness, clarity_simple_language, coherence_story_arc,\nwarmth_and_kindness, engagement_imagination, safety_flags,\nrequired_changes, recommendations, require_revision, summary\x7d" }
  , { role := "user"
    , content := "USER REQUEST:\n" ++ user_request ++ "\n\nSTORY:\n" ++ story_md } ]

/-- `reviser_messages(user_request, story_md, feedback)` from `main.py`. -/
def reviser_messages (user_request : String) (story_md : String) (feedback : String) : List Message :=
  [ { role := "system"
    , content :=
        "You are \x27The Skilled Reviser.\x27 Improve the story while keeping it safe and age-appropriate. Respect the Markdown structure (# Title, ## Story, ## Moral)." }
  , { role := "user"
    , content :=
        "ORIGINAL REQUEST:\n" ++ user_request ++ "\n\n"
          ++ "CURRENT STORY:\n" ++ story_md ++ "\n\n"
          ++ "FEEDBACK:\n" ++ feedback } ]

/-- `parse_judge` from `main.py`, applied to the strict-JSON decode
outcome of the judge response text: if `json.loads` succeeds its value
is returned unchanged, whatever it is; if it raises, the fallback
verdict dictionary is returned and no error propagates. -/
def parse_judge (decoded : Option Json) : Json :=
  match decoded with
  | some v => v
  | none =>
      Json.obj
        [ ("require_revision", Json.bool true)
        , ("required_changes", Json.arr [Json.str "Fix JSON parsing"])
        , ("safety_flags", Json.arr []) ]

/-- Call statistics of one run of the internal QC loop. -/
structure QCStats where
  judgeCalls : Nat
  reviserCalls : Nat
  reviserFeedbacks : List String
deriving DecidableEq, Repr

/-- The `for _ in range(MAX_INTERNAL_REVISIONS + 1)` loop body of
`generate_polished_story`, recursing on the remaining iteration count.
`judgeVerdict k` is the decode outcome of the judge response on the
k-th judge call; `reviserOut` maps the messages sent to the reviser to
its response.  Alongside the Python result (or the Python exception)
the run's judge-call count, reviser-call count and the feedback strings
handed to `reviser_messages` are returned. -/
def qc_loop (user_request : String) (judgeVerdict : Nat → Option Json)
    (reviserOut : List Message → String) :
    Nat → String → QCStats → Except PyError String × QCStats
  | 0, story, stats => (Except.ok story, stats)
  | fuel + 1, story, stats =>
      let judge := parse_judge (judgeVerdict stats.judgeCalls)
      let stats1 : QCStats :=
        { stats with judgeCalls := stats.judgeCalls + 1 }
      match judge.pyGet "require_revision" (Json.bool false) with
      | Except.error e => (Except.error e, stats1)
      | Except.ok rr =>
          if rr.truthy then
            let fb := "Apply judge feedback"
            let story2 := reviserOut (reviser_messages user_request story fb)
            qc_loop user_request judgeVerdict reviserOut fuel story2
              { stats1 with
                  reviserCalls := stats1.reviserCalls + 1
                , reviserFeedbacks := stats1.reviserFeedbacks ++ [fb] }
          else
            (Except.ok story, stats1)

/-- `generate_polished_story` from `main.py`: classifier, storyteller,
then the judge/reviser loop.  `classifierResponse` is the completion
text returned to the classifier; `storytellerOut` maps the storyteller
messages to the draft returned. -/
def generate_polished_story (classifierResponse : String)
    (storytellerOut : List Message → String) (judgeVerdict : Nat → Option Json)
    (reviserOut : List Message → String) (user_request : String) :
    Except PyError String × QCStats :=
  let category := classify_request classifierResponse
  let story := storytellerOut (storyteller_messages user_request category)
  qc_loop user_request judgeVerdict reviserOut (MAX_INTERNAL_REVISIONS + 1) story
    { judgeCalls := 0, reviserCalls := 0, reviserFeedbacks := [] }

/-- Call statistics of one run of the user feedback loop. -/
structure FBStats where
  presentations : Nat
  reviserCalls : Nat
  reviserFeedbacks : List String
deriving DecidableEq, Repr

/-- The `for i in range(MAX_USER_REVISIONS + 1)` loop body of
`user_feedback_loop`, recursing on the remaining iteration count.
`inputs k` is the raw text the user enters at the k-th prompt; the
source strips it before the emptiness test and before handing it to
the reviser.  Each iteration prints the draft once (one presentation)
before reading input. -/
def user_fb_loop (user_request : String) (reviserOut : List Message → String)
    (inputs : Nat → String) : Nat → String → FBStats → String × FBStats
  | 0, story, stats => (story, stats)
  | fuel + 1, story, stats =>
      let stats1 : FBStats :=
        { stats with presentations := stats.presentations + 1 }
      let feedback := pyStrip (inputs stats.presentations)
      if feedback = "" then
        (story, stats1)
      else
        let story2 := reviserOut (reviser_messages user_request story feedback)
        user_fb_loop user_request reviserOut inputs fuel story2
          { stats1 with
              reviserCalls := stats1.reviserCalls + 1
            , reviserFeedbacks := stats1.reviserFeedbacks ++ [feedback] }

/-- `user_feedback_loop` from `main.py`. -/
def user_feedback_loop (user_request : String) (reviserOut : List Message → String)
    (inputs : Nat → String) (story : String) : String × FBStats :=
  user_fb_loop user_request reviserOut inputs (MAX_USER_REVISIONS + 1) story
    { presentations := 0, reviserCalls := 0, reviserFeedbacks := [] }

/-- `ensure_api_key` from `main.py`: `os.getenv` yields `none` when the
variable is absent; Python `if not os.getenv(...)` also fires on the
empty string. -/
def ensure_api_key (env : String → Option String) : Except PyError Unit :=
  match env "OPENAI_API_KEY" with
  | none => Except.error PyError.environmentError
  | some s => if s = "" then Except.error PyError.environmentError else Except.ok ()

/-- `main` from `main.py`, after argument parsing has produced the
request text: `ensure_api_key` runs first, then the pipeline, then the
user feedback loop.  The second component counts every completion-
service call made during the run (classifier and storyteller each make
one, plus the judge and reviser calls of both loops); when
`ensure_api_key` raises, the pipeline never starts and the count is 0. -/
def run_main (env : String → Option String) (classifierResponse : String)
    (storytellerOut : List Message → String) (judgeVerdict : Nat → Option Json)
    (reviserOut : List Message → String) (inputs : Nat → String)
    (user_request : String) : Except PyError String × Nat :=
  match ensure_api_key env with
  | Except.error e => (Except.error e, 0)
  | Except.ok _ =>
      let (res, qc) := generate_polished_story classifierResponse storytellerOut
        judgeVerdict reviserOut user_request
      match res with
      | Except.error e => (Except.error e, 2 + qc.judgeCalls + qc.reviserCalls)
      | Except.ok polished =>
          let (finalStory, fb) := user_feedback_loop user_request reviserOut inputs polished
          (Except.ok finalStory, 2 + qc.judgeCalls + qc.reviserCalls + fb.reviserCalls)

/-- One-step unfolding of `qc_loop` on positive fuel. -/
theorem qc_loop_succ (user_request : String) (judgeVerdict : Nat → Option Json)
    (reviserOut : List Message → String) (fuel : Nat) (story : String) (stats : QCStats) :
    qc_loop user_request judgeVerdict reviserOut (fuel + 1) story stats
      = match (parse_judge (judgeVerdict stats.judgeCalls)).pyGet "require_revision"
              (Json.bool false) with
        | Except.error e =>
            (Except.error e, { stats with judgeCalls := stats.judgeCalls + 1 })
        | Except.ok rr =>
            if rr.truthy then
              qc_loop user_request judgeVerdict reviserOut fuel
                (reviserOut (reviser_messages user_request story "Apply judge feedback"))
                { judgeCalls := stats.judgeCalls + 1
                , reviserCalls := stats.reviserCalls + 1
                , reviserFeedbacks := stats.reviserFeedbacks ++ ["Apply judge feedback"] }
            else
              (Except.ok story, { stats with judgeCalls := stats.judgeCalls + 1 }) := rfl

/-- One-step unfolding of `user_fb_loop` on positive fuel. -/
theorem user_fb_loop_succ (user_request : String) (reviserOut : List Message → String)
    (inputs : Nat → String) (fuel : Nat) (story : String) (stats : FBStats) :
    user_fb_loop user_request reviserOut inputs (fuel + 1) story stats
      = if pyStrip (inputs stats.presentations) = "" then
          (story, { stats with presentations := stats.presentations + 1 })
        else
          user_fb_loop user_request reviserOut inputs fuel
            (reviserOut (reviser_messages user_request story (pyStrip (inputs stats.presentations))))
            { presentations := stats.presentations + 1
            , reviserCalls := stats.reviserCalls + 1
            , reviserFeedbacks := stats.reviserFeedbacks ++ [pyStrip (inputs stats.presentations)] }
      := rfl

/-- C3: for every judge response text on which strict JSON decoding
fails (all such responses are modelled by the decode outcome `none`),
`parse_judge` returns — never raises — a verdict dictionary whose
`require_revision` entry is `true` and whose `required_changes` entry
is a non-empty list; no decoding failure reaches the caller (the
function is total on decode outcomes by its type). -/
theorem C3_decode_failure_fallback_verdict :
    (parse_judge none).pyGet "require_revision" (Json.bool false) = Except.ok (Json.bool true)
    ∧ (∃ changes : List Json,
        (parse_judge none).pyGet "required_changes" Json.null = Except.ok (Json.arr changes)
        ∧ changes ≠ [])
    ∧ (parse_judge none).isObj = true :=
  ⟨rfl, ⟨[Json.str "Fix JSON parsing"], rfl, by simp⟩, rfl⟩

/-- C4: when the first judge response decodes to a JSON object whose
`require_revision` field is `false`, the internal QC loop returns the
storyteller's draft unchanged after exactly one judge call and zero
reviser calls. -/
theorem C4_accept_returns_draft_without_reviser
    (classifierResponse user_request : String)
    (storytellerOut reviserOut : List Message → String)
    (judgeVerdict : Nat → Option Json) (fields : List (String × Json))
    (h0 : judgeVerdict 0 = some (Json.obj fields))
    (hf : lookupKey fields "require_revision" = some (Json.bool false)) :
    generate_polished_story classifierResponse storytellerOut judgeVerdict
        reviserOut user_request
      = (Except.ok (storytellerOut (storyteller_messages user_request
            (classify_request classifierResponse))),
         { judgeCalls := 1, reviserCalls := 0, reviserFeedbacks := [] }) := by
  unfold generate_polished_story
  rw [qc_loop_succ]
  simp [h0, hf, parse_judge, Json.pyGet, Json.truthy]

/-- Witness for C4 at a concrete accepting judge verdict. -/
theorem C4_accept_returns_draft_without_reviser_witness :
    generate_polished_story "bedtime-calming" (fun _ => "the draft")
        (fun _ => some (Json.obj [("require_revision", Json.bool false)]))
        (fun _ => "rev") "a story about a cat"
      = (Except.ok "the draft",
         { judgeCalls := 1, reviserCalls := 0, reviserFeedbacks := [] }) :=
  C4_accept_returns_draft_without_reviser "bedtime-calming" "a story about a cat"
    (fun _ => "the draft") (fun _ => "rev")
    (fun _ => some (Json.obj [("require_revision", Json.bool false)]))
    [("require_revision", Json.bool false)] rfl rfl

/-- C10: when the first judge response decodes to a JSON object with no
`require_revision` key at all, `dict.get` supplies the default `False`,
so the internal QC loop treats the draft as accepted and returns it
after one judge call and zero reviser calls. -/
theorem C10_missing_field_defaults_to_accept
    (classifierResponse user_request : String)
    (storytellerOut reviserOut : List Message → String)
    (judgeVerdict : Nat → Option Json) (fields : List (String × Json))
    (h0 : judgeVerdict 0 = some (Json.obj fields))
    (hf : lookupKey fields "require_revision" = none) :
    generate_polished_story classifierResponse storytellerOut judgeVerdict
        reviserOut user_request
      = (Except.ok (storytellerOut (storyteller_messages user_request
            (classify_request classifierResponse))),
         { judgeCalls := 1, reviserCalls := 0, reviserFeedbacks := [] }) := by
  unfold generate_polished_story
  rw [qc_loop_succ]
  simp [h0, hf, parse_judge, Json.pyGet, Json.truthy]

/-- Witness for C10 at the concrete empty-object verdict. -/
theorem C10_missing_field_defaults_to_accept_witness :
    generate_polished_story "animals" (fun _ => "the draft")
        (fun _ => some (Json.obj [])) (fun _ => "rev") "a story about a fox"
      = (Except.ok "the draft",
         { judgeCalls := 1, reviserCalls := 0, reviserFeedbacks := [] }) :=
  C10_missing_field_defaults_to_accept "animals" "a story about a fox"
    (fun _ => "the draft") (fun _ => "rev") (fun _ => some (Json.obj []))
    [] rfl rfl

/-- C9: on a successful decode `parse_judge` returns the decoded value
unchanged even when it is not an object, and the internal QC loop's
subsequent `require_revision` lookup on such a non-object value raises
`AttributeError` (the Python `.get` call is undefined on non-dicts). -/
theorem C9_nonobject_decode_passthrough_breaks_lookup
    (v : Json) (hv : v.isObj = false)
    (classifierResponse user_request : String)
    (storytellerOut reviserOut : List Message → String)
    (judgeVerdict : Nat → Option Json)
    (h0 : judgeVerdict 0 = some v) :
    parse_judge (some v) = v
    ∧ generate_polished_story classifierResponse storytellerOut judgeVerdict
        reviserOut user_request
      = (Except.error PyError.attributeError,
         { judgeCalls := 1, reviserCalls := 0, reviserFeedbacks := [] }) := by
  have hget : v.pyGet "require_revision" (Json.bool false)
      = Except.error PyError.attributeError := by
    cases v <;> simp [Json.pyGet, Json.isObj] at hv ⊢
  refine ⟨rfl, ?_⟩
  unfold generate_polished_story
  rw [qc_loop_succ]
  simp [parse_judge, h0, hget]

/-- Witness for C9 at a judge response decoding to the bare string
"looks good". -/
theorem C9_nonobject_decode_passthrough_breaks_lookup_witness :
    parse_judge (some (Json.str "looks good")) = Json.str "looks good"
    ∧ generate_polished_story "fantasy" (fun _ => "the draft")
        (fun _ => some (Json.str "looks good")) (fun _ => "rev") "a story"
      = (Except.error PyError.attributeError,
         { judgeCalls := 1, reviserCalls := 0, reviserFeedbacks := [] }) :=
  C9_nonobject_decode_passthrough_breaks_lookup (Json.str "looks good") rfl
    "fantasy" "a story" (fun _ => "the draft") (fun _ => "rev")
    (fun _ => some (Json.str "looks good")) rfl

/-- C5: when the first user input is empty or whitespace-only (its
strip is empty), the user feedback loop returns the presented draft
unchanged after exactly one presentation and zero reviser calls; and,
in general, an empty-after-strip input at any prompt the loop reaches
terminates it immediately with the draft current at that prompt
unchanged — one more presentation, no further reviser call, no
feedback recorded. -/
theorem C5_empty_feedback_terminates_with_current_draft
    (user_request : String) (reviserOut : List Message → String)
    (inputs : Nat → String) :
    (∀ story, pyStrip (inputs 0) = "" →
        user_feedback_loop user_request reviserOut inputs story
          = (story, { presentations := 1, reviserCalls := 0, reviserFeedbacks := [] }))
    ∧ (∀ fuel story i r fbs, pyStrip (inputs i) = "" →
        user_fb_loop user_request reviserOut inputs (fuel + 1) story ⟨i, r, fbs⟩
          = (story, ⟨i + 1, r, fbs⟩)) := by
  constructor
  · intro story h
    unfold user_feedback_loop
    rw [user_fb_loop_succ]
    simp [h]
  · intro fuel story i r fbs h
    rw [user_fb_loop_succ]
    exact if_pos h

/-- Witness for C5: a whitespace-only first input accepts the draft at
once, and — mid-loop — after a first non-empty feedback "go" has been
revised into "the first revision", a whitespace-only input at the
second prompt returns that first revision unchanged. -/
theorem C5_empty_feedback_terminates_with_current_draft_witness :
    pyStrip "   " = ""
    ∧ user_feedback_loop "a story" (fun _ => "rev") (fun _ => "   ") "the draft"
        = ("the draft", { presentations := 1, reviserCalls := 0, reviserFeedbacks := [] })
    ∧ user_fb_loop "a story" (fun _ => "rev") (fun k => if k = 0 then "go" else "   ")
          2 "the first revision" ⟨1, 1, ["go"]⟩
        = ("the first revision", ⟨2, 1, ["go"]⟩) :=
  ⟨rfl,
   (C5_empty_feedback_terminates_with_current_draft "a story" (fun _ => "rev")
     (fun _ => "   ")).1 "the draft" rfl,
   (C5_empty_feedback_terminates_with_current_draft "a story" (fun _ => "rev")
     (fun k => if k = 0 then "go" else "   ")).2 1 "the first revision" 1 1 ["go"] rfl⟩

/-- C1 (failing-input evaluation): with the default cap
`MAX_INTERNAL_REVISIONS = 1` and a judge that demands revision on both
calls, the internal QC loop makes 2 judge calls — within the claimed
cap + 1 — but 2 reviser calls, exceeding the claimed cap of 1, and
returns a second revision that no judge ever saw. -/
theorem C1_internal_loop_exceeds_reviser_cap
    (classifierResponse user_request : String)
    (storytellerOut reviserOut : List Message → String) :
    MAX_INTERNAL_REVISIONS = 1
    ∧ generate_polished_story classifierResponse storytellerOut
        (fun _ => some (Json.obj [("require_revision", Json.bool true)]))
        reviserOut user_request
      = (Except.ok
           (reviserOut (reviser_messages user_request
             (reviserOut (reviser_messages user_request
               (storytellerOut (storyteller_messages user_request
                 (classify_request classifierResponse)))
               "Apply judge feedback"))
             "Apply judge feedback")),
         { judgeCalls := 2, reviserCalls := 2
         , reviserFeedbacks := ["Apply judge feedback", "Apply judge feedback"] }) :=
  ⟨rfl, rfl⟩

/-- C2 (failing-input evaluation): with the default cap
`MAX_USER_REVISIONS = 2` and a user who gives non-empty feedback at
every prompt, the user feedback loop makes 3 presentations — within
the claimed cap + 1 — but 3 reviser calls, not 2, and returns the
third revision, not the second. -/
theorem C2_user_loop_exceeds_revision_cap
    (user_request draft : String) (reviserOut : List Message → String) :
    MAX_USER_REVISIONS = 2
    ∧ user_feedback_loop user_request reviserOut (fun _ => "more dialogue") draft
      = (reviserOut (reviser_messages user_request
           (reviserOut (reviser_messages user_request
             (reviserOut (reviser_messages user_request draft "more dialogue"))
             "more dialogue"))
           "more dialogue"),
         { presentations := 3, reviserCalls := 3
         , reviserFeedbacks := ["more dialogue", "more dialogue", "more dialogue"] }) :=
  ⟨rfl, rfl⟩

/-- C8: when `OPENAI_API_KEY` is absent from the environment,
`ensure_api_key` raises `EnvironmentError` at the start of `main`, the
run halts, and zero completion-service calls are made — no pipeline
stage executes. -/
theorem C8_missing_api_key_halts_before_any_call
    (env : String → Option String) (classifierResponse : String)
    (storytellerOut : List Message → String) (judgeVerdict : Nat → Option Json)
    (reviserOut : List Message → String) (inputs : Nat → String)
    (user_request : String) (h : env "OPENAI_API_KEY" = none) :
    run_main env classifierResponse storytellerOut judgeVerdict reviserOut
        inputs user_request
      = (Except.error PyError.environmentError, 0) := by
  simp [run_main, ensure_api_key, h]

/-- Witness for C8 at the empty environment. -/
theorem C8_missing_api_key_halts_before_any_call_witness :
    run_main (fun _ => none) "animals" (fun _ => "draft") (fun _ => none)
        (fun _ => "rev") (fun _ => "") "a story"
      = (Except.error PyError.environmentError, 0) :=
  C8_missing_api_key_halts_before_any_call (fun _ => none) "animals"
    (fun _ => "draft") (fun _ => none) (fun _ => "rev") (fun _ => "")
    "a story" rfl

/-- When every successfully-decoded judge response is a JSON object,
the internal QC loop never raises: its result is an `ok` draft. -/
theorem qc_loop_ok_of_obj_verdicts (user_request : String)
    (judgeVerdict : Nat → Option Json) (reviserOut : List Message → String)
    (hjv : ∀ k v, judgeVerdict k = some v → v.isObj = true) :
    ∀ fuel story stats,
      ((qc_loop user_request judgeVerdict reviserOut fuel story stats).1).isOk = true := by
  intro fuel
  induction fuel with
  | zero => intro story stats; rfl
  | succ n ih =>
      intro story stats
      rw [qc_loop_succ]
      cases hj : judgeVerdict stats.judgeCalls with
      | none => simp [parse_judge, Json.pyGet, lookupKey, Json.truthy, ih]
      | some v =>
          have hobj := hjv _ _ hj
          cases v with
          | obj fields =>
              simp only [parse_judge, Json.pyGet]
              cases htr : ((lookupKey fields "require_revision").getD (Json.bool false)).truthy
              · simp [htr, Except.isOk, Except.toBool]
              · simp [htr, ih]
          | null => simp [Json.isObj] at hobj
          | bool b => simp [Json.isObj] at hobj
          | num m => simp [Json.isObj] at hobj
          | str s => simp [Json.isObj] at hobj
          | arr xs => simp [Json.isObj] at hobj

/-- C6: the classifier output is exactly the completion response
stripped of surrounding whitespace and lower-cased; whatever string
that is — member of the enumerated category set or not — it flows
unvalidated into the storyteller's prompt, and the pipeline still
produces a draft (no failure) as long as the judge responses decode to
objects when they decode at all. -/
theorem C6_classifier_output_unvalidated_passthrough
    (classifierResponse user_request : String)
    (storytellerOut reviserOut : List Message → String)
    (judgeVerdict : Nat → Option Json)
    (hjv : ∀ k v, judgeVerdict k = some v → v.isObj = true) :
    classify_request classifierResponse = pyLower (pyStrip classifierResponse)
    ∧ generate_polished_story classifierResponse storytellerOut judgeVerdict
        reviserOut user_request
      = qc_loop user_request judgeVerdict reviserOut (MAX_INTERNAL_REVISIONS + 1)
          (storytellerOut (storyteller_messages user_request
            (pyLower (pyStrip classifierResponse))))
          { judgeCalls := 0, reviserCalls := 0, reviserFeedbacks := [] }
    ∧ ((generate_polished_story classifierResponse storytellerOut judgeVerdict
          reviserOut user_request).1).isOk = true :=
  ⟨rfl, rfl,
   qc_loop_ok_of_obj_verdicts user_request judgeVerdict reviserOut hjv _ _ _⟩

/-- Witness for C6 at the out-of-set classifier response
"  Space-Opera  " (accepting judge). -/
theorem C6_classifier_output_unvalidated_passthrough_witness :
    (∀ k v, (fun _ : Nat => some (Json.obj ([] : List (String × Json)))) k = some v
        → v.isObj = true)
    ∧ classify_request "  Space-Opera  " = "space-opera"
    ∧ ((generate_polished_story "  Space-Opera  " (fun _ => "draft")
          (fun _ => some (Json.obj [])) (fun _ => "rev") "a story").1).isOk = true := by
  refine ⟨?_, by decide, ?_⟩
  · intro k v h
    injection h with h2
    subst h2
    rfl
  · exact (C6_classifier_output_unvalidated_passthrough "  Space-Opera  " "a story"
      (fun _ => "draft") (fun _ => "rev") (fun _ => some (Json.obj []))
      (by intro k v h; injection h with h2; subst h2; rfl)).2.2

/-- One-step unfolding of `qc_loop` with the statistics record given by
its fields. -/
theorem qc_loop_succ_fields (user_request : String) (judgeVerdict : Nat → Option Json)
    (reviserOut : List Message → String) (fuel : Nat) (story : String)
    (j r : Nat) (fbs : List String) :
    qc_loop user_request judgeVerdict reviserOut (fuel + 1) story ⟨j, r, fbs⟩
      = match (parse_judge (judgeVerdict j)).pyGet "require_revision" (Json.bool false) with
        | Except.error e => (Except.error e, ⟨j + 1, r, fbs⟩)
        | Except.ok rr =>
            if rr.truthy then
              qc_loop user_request judgeVerdict reviserOut fuel
                (reviserOut (reviser_messages user_request story "Apply judge feedback"))
                ⟨j + 1, r + 1, fbs ++ ["Apply judge feedback"]⟩
            else
              (Except.ok story, ⟨j + 1, r, fbs⟩) := rfl

/-- One-step unfolding of `user_fb_loop` with the statistics record
given by its fields. -/
theorem user_fb_loop_succ_fields (user_request : String) (reviserOut : List Message → String)
    (inputs : Nat → String) (fuel : Nat) (story : String)
    (i r : Nat) (fbs : List String) :
    user_fb_loop user_request reviserOut inputs (fuel + 1) story ⟨i, r, fbs⟩
      = if pyStrip (inputs i) = "" then
          (story, ⟨i + 1, r, fbs⟩)
        else
          user_fb_loop user_request reviserOut inputs fuel
            (reviserOut (reviser_messages user_request story (pyStrip (inputs i))))
            ⟨i + 1, r + 1, fbs ++ [pyStrip (inputs i)]⟩ := rfl

/-- Every feedback string the internal QC loop ever hands to the
reviser is either inherited from the accumulator or is the literal
"Apply judge feedback". -/
theorem qc_loop_feedback_trace (user_request : String) (judgeVerdict : Nat → Option Json)
    (reviserOut : List Message → String) :
    ∀ fuel story j r fbs fb,
      fb ∈ (qc_loop user_request judgeVerdict reviserOut fuel story ⟨j, r, fbs⟩).2.reviserFeedbacks
      → fb ∈ fbs ∨ fb = "Apply judge feedback" := by
  intro fuel
  induction fuel with
  | zero => intro story j r fbs fb h; exact Or.inl h
  | succ n ih =>
      intro story j r fbs fb h
      rw [qc_loop_succ_fields] at h
      rcases hg : (parse_judge (judgeVerdict j)).pyGet "require_revision" (Json.bool false)
        with e | rr
      · rw [hg] at h
        exact Or.inl h
      · rw [hg] at h
        cases ht : rr.truthy
        · simp [ht] at h
          exact Or.inl h
        · simp only [ht, if_true] at h
          rcases ih _ _ _ _ _ h with h2 | h2
          · rcases List.mem_append.1 h2 with h3 | h3
            · exact Or.inl h3
            · exact Or.inr (List.mem_singleton.1 h3)
          · exact Or.inr h2

/-- The user feedback loop hands the reviser exactly the stripped user
inputs, in prompt order: after a run starting at presentation index
`i` with accumulator `fbs`, the recorded feedbacks are `fbs` followed
by `pyStrip (inputs k)` for the consecutive indices `k` consumed, and
the reviser-call counter grows by that same number. -/
theorem user_fb_loop_feedback_trace (user_request : String)
    (reviserOut : List Message → String) (inputs : Nat → String) :
    ∀ fuel story i r fbs,
      ∃ m,
        (user_fb_loop user_request reviserOut inputs fuel story
            ⟨i, r, fbs⟩).2.reviserFeedbacks
          = fbs ++ (List.range' i m).map (fun k => pyStrip (inputs k))
        ∧ (user_fb_loop user_request reviserOut inputs fuel story
            ⟨i, r, fbs⟩).2.reviserCalls = r + m := by
  intro fuel
  induction fuel with
  | zero => intro story i r fbs; exact ⟨0, by simp [user_fb_loop], by simp [user_fb_loop]⟩
  | succ n ih =>
      intro story i r fbs
      rw [user_fb_loop_succ_fields]
      by_cases hs : pyStrip (inputs i) = ""
      · exact ⟨0, by simp [hs], by simp [hs]⟩
      · obtain ⟨m, h1, h2⟩ := ih
          (reviserOut (reviser_messages user_request story (pyStrip (inputs i))))
          (i + 1) (r + 1) (fbs ++ [pyStrip (inputs i)])
        refine ⟨m + 1, ?_, ?_⟩
        · rw [if_neg hs, h1, List.range'_succ]
          simp
        · rw [if_neg hs, h2]
          omega

/-- C7 counterexample: the user enters " add a dragon " (with
surrounding spaces) and then accepts.  The single reviser invocation
receives "add a dragon" — the stripped text — which differs from the
verbatim input, so the reviser does not receive the user's feedback
verbatim. -/
theorem C7_counterexample_user_feedback_not_verbatim :
    (user_feedback_loop "a story" (fun _ => "rev")
        (fun k => if k = 0 then " add a dragon " else "") "draft").2.reviserFeedbacks
      = ["add a dragon"]
    ∧ (" add a dragon " : String) ≠ "add a dragon" :=
  ⟨rfl, by decide⟩

/-- C7 as amended: every reviser invocation from the internal QC loop
receives the literal feedback string "Apply judge feedback", and the
user feedback loop's reviser invocations receive, in order, the user's
successive inputs each stripped of surrounding whitespace (Python
`.strip()` is applied before the text is handed on). -/
theorem C7_amended_reviser_feedback_strings
    (classifierResponse user_request story : String)
    (storytellerOut reviserOut : List Message → String)
    (judgeVerdict : Nat → Option Json) (inputs : Nat → String) :
    (∀ fb ∈ (generate_polished_story classifierResponse storytellerOut judgeVerdict
        reviserOut user_request).2.reviserFeedbacks, fb = "Apply judge feedback")
    ∧ ∃ m,
        (user_feedback_loop user_request reviserOut inputs story).2.reviserFeedbacks
          = (List.range m).map (fun k => pyStrip (inputs k))
        ∧ (user_feedback_loop user_request reviserOut inputs story).2.reviserCalls = m := by
  constructor
  · intro fb h
    rcases qc_loop_feedback_trace user_request judgeVerdict reviserOut
        (MAX_INTERNAL_REVISIONS + 1)
        (storytellerOut (storyteller_messages user_request
          (classify_request classifierResponse))) 0 0 [] fb h with h2 | h2
    · exact absurd h2 (List.not_mem_nil fb)
    · exact h2
  · obtain ⟨m, h1, h2⟩ := user_fb_loop_feedback_trace user_request reviserOut inputs
      (MAX_USER_REVISIONS + 1) story 0 0 []
    exact ⟨m, by simpa [user_feedback_loop, List.range_eq_range'] using h1,
           by simpa [user_feedback_loop] using h2⟩
